import Mathlib

/-!
Verification of the geometry core of the building-dataset pipeline
(`src/dataset/utils.py`, `src/dataset/process_osm_data.py`).

The repository computes building footprint areas by projecting each ring
vertex to UTM coordinates and applying the planar (shoelace) polygon-area
formula, and computes a Street View camera pitch from geocentric 3-D
vectors.  Third-party libraries (`utm`, `pyproj`, `shapely`) are external
collaborators: their coordinate transforms are abstracted as function
parameters, and the documented shapely/GEOS ring-validity contract
(a closed `LinearRing` needs at least 4 coordinate points) is modelled
explicitly where the pipeline depends on it.

Geographic vertices are `ℚ × ℚ` pairs `(lon, lat)`; projected vertices are
`ℚ × ℚ` pairs `(easting, northing)`.  The camera-pitch solver works over `ℝ`
because it uses `Real.arccos` and `Real.sqrt`.
-/

/-- Cross-product term of the shoelace formula for two consecutive
projected vertices `p = (x_i, y_i)` and `q = (x_j, y_j)`. -/
def cross (p q : ℚ × ℚ) : ℚ :=
  p.1 * q.2 - q.1 * p.2

/-- Sum of shoelace cross terms along consecutive pairs of an open
vertex path (no wrap-around term). -/
def pathSum : List (ℚ × ℚ) → ℚ
  | [] => 0
  | [_] => 0
  | p :: q :: t => cross p q + pathSum (q :: t)

/-- Last element of a list, with a default for the empty list. -/
def lastD : List (ℚ × ℚ) → (ℚ × ℚ) → (ℚ × ℚ)
  | [], d => d
  | [p], _ => p
  | _ :: q :: t, d => lastD (q :: t) d

/-- Signed double area of the polygon described by a coordinate list,
treated cyclically: the path terms plus the closing term from the last
vertex back to the first.  This is the signed-area computation performed
by shapely when `Polygon(coords).area` is evaluated (shapely closes the
coordinate sequence automatically). -/
def ringSum : List (ℚ × ℚ) → ℚ
  | [] => 0
  | p :: t => pathSum (p :: t) + cross (lastD t p) p

/-- Planar polygon area of a projected coordinate list: absolute value of
the signed shoelace sum, halved.  Models `shapely.geometry.Polygon(...).area`
on the projected vertices. -/
def shoelaceArea (l : List (ℚ × ℚ)) : ℚ :=
  |ringSum l| / 2

/-- Embedding of `calculate_ring_area_in_utm` (src/dataset/utils.py,
lines 29-43): every vertex of the ring is projected independently by
`utm.from_latlon` (abstracted as `proj`, mapping a `(lon, lat)` pair to an
`(easting, northing)` pair), and the planar polygon area of the projected
coordinates is returned. -/
def calculate_ring_area_in_utm (proj : ℚ × ℚ → ℚ × ℚ) (ring : List (ℚ × ℚ)) : ℚ :=
  shoelaceArea (ring.map proj)

/-- A polygon in geographic coordinates: one exterior ring and a list of
interior hole rings (the shapely `Polygon` consumed by
`calculate_polygon_area_in_utm`). -/
structure GeoPolygon where
  exterior : List (ℚ × ℚ)
  interiors : List (List (ℚ × ℚ))

/-- Embedding of `calculate_polygon_area_in_utm` (src/dataset/utils.py,
lines 46-60): starts from the exterior ring's area and subtracts each
hole ring's area in a loop. -/
def calculate_polygon_area_in_utm (proj : ℚ × ℚ → ℚ × ℚ) (polygon : GeoPolygon) : ℚ :=
  polygon.interiors.foldl
    (fun area hole => area - calculate_ring_area_in_utm proj hole)
    (calculate_ring_area_in_utm proj polygon.exterior)

/-- Error taxonomy for the geometry pipeline.  `indexOutOfRange` models a
Python `IndexError` (an out-of-range sequence access); `invalidGeometry`
models a shapely/GEOS geometry-validity exception. -/
inductive GeomError where
  | indexOutOfRange
  | invalidGeometry
  deriving DecidableEq

/-- Embedding of `convert_osm_to_wkt` (src/dataset/utils.py, lines 63-78),
restricted to the coordinate list it builds: the vertex list is closed by
appending the first vertex when the first and last vertices differ.  On an
empty geometry the source evaluates `coords[0]`, which raises a Python
`IndexError`; that is modelled as the `indexOutOfRange` error. -/
def convert_osm_to_wkt (geometry : List (ℚ × ℚ)) : Except GeomError (List (ℚ × ℚ)) :=
  match geometry with
  | [] => .error .indexOutOfRange
  | p :: t =>
      if p ≠ lastD t p then .ok ((p :: t) ++ [p]) else .ok (p :: t)

/-- Modelled from the shapely/GEOS contract used by `shapely.wkt.loads`
(invoked in src/dataset/process_osm_data.py, line 45), which is an external
library not part of the repository source: a WKT `POLYGON` ring is accepted
only when its closed coordinate sequence has 0 or at least 4 points;
otherwise parsing raises a geometry-validity exception. -/
def wktLoadPolygonRing (coords : List (ℚ × ℚ)) : Except GeomError (List (ℚ × ℚ)) :=
  if coords.length = 0 ∨ 4 ≤ coords.length then .ok coords
  else .error .invalidGeometry

/-- The ring-construction pipeline of `process_osm_building`
(src/dataset/process_osm_data.py, lines 40-52): build the closed WKT
coordinate list with `convert_osm_to_wkt`, then parse it with
`shapely.wkt.loads`. -/
def osmRingParse (geometry : List (ℚ × ℚ)) : Except GeomError (List (ℚ × ℚ)) :=
  (convert_osm_to_wkt geometry).bind wktLoadPolygonRing

/-- Full area pipeline for a single OSM ring: close, parse, project to UTM
and take the planar polygon area. -/
def osmRingAreaPipeline (proj : ℚ × ℚ → ℚ × ℚ) (geometry : List (ℚ × ℚ)) :
    Except GeomError ℚ :=
  (osmRingParse geometry).map (calculate_ring_area_in_utm proj)

noncomputable section

/-- 3-D dot product, as computed by `np.dot` on geocentric vectors. -/
def dot3 (u v : ℝ × ℝ × ℝ) : ℝ :=
  u.1 * v.1 + u.2.1 * v.2.1 + u.2.2 * v.2.2

/-- Euclidean length of a 3-D vector, as computed by `numpy.linalg.norm`. -/
def norm3 (u : ℝ × ℝ × ℝ) : ℝ :=
  Real.sqrt (dot3 u u)

/-- Componentwise difference of two 3-D vectors. -/
def sub3 (u v : ℝ × ℝ × ℝ) : ℝ × ℝ × ℝ :=
  (u.1 - v.1, u.2.1 - v.2.1, u.2.2 - v.2.2)

/-- Radians-to-degrees conversion, as computed by `np.degrees`. -/
def degrees (x : ℝ) : ℝ :=
  x * (180 / Real.pi)

/-- Python truthiness of the `building_height` value (a float or `None`):
`None` and `0.0` are falsy, every other float is truthy. -/
def heightTruthy : Option ℝ → Prop
  | none => False
  | some h => h ≠ 0

/-- The observer-to-ground vector `vec0` of `get_streetview_url`
(src/dataset/utils.py, line 146): geocentric target ground point minus
geocentric observer position.  `T` abstracts the pyproj EPSG:4326 to
EPSG:4978 transformer, mapping `(lon, lat, height)` to a geocentric
3-D point. -/
def vec_ground (T : ℝ → ℝ → ℝ → ℝ × ℝ × ℝ) (cam : ℝ × ℝ)
    (longitude latitude : ℝ) : ℝ × ℝ × ℝ :=
  sub3 (T longitude latitude 0) (T cam.1 cam.2 0)

/-- The observer-to-rooftop vector `vec1` of `get_streetview_url`
(src/dataset/utils.py, lines 147-151): geocentric target point raised to
the building height, minus the geocentric observer position. -/
def vec_top (T : ℝ → ℝ → ℝ → ℝ × ℝ × ℝ) (cam : ℝ × ℝ)
    (longitude latitude height : ℝ) : ℝ × ℝ × ℝ :=
  sub3 (T longitude latitude height) (T cam.1 cam.2 0)

/-- The pitch formula of `get_streetview_url` (src/dataset/utils.py,
lines 152-153): half of the angle, in degrees, given by the inverse cosine
of the normalized dot product of the two vectors. -/
def halfAngleDeg (u v : ℝ × ℝ × ℝ) : ℝ :=
  degrees (Real.arccos (dot3 u v / (norm3 u * norm3 v))) * (1 / 2)

open Classical in
/-- Pitch selection of `get_streetview_url` (src/dataset/utils.py,
lines 141-153).  `cam` is the result of `get_streetview_camera_position`
(an external HTTP lookup): `some` observer position when Street View is
available, `none` otherwise.  When `use_building_height` is set and the
height is truthy, and an observer position is found, the pitch is the
half-angle formula on the two geocentric vectors; in every other case the
caller-supplied `pitch` argument is kept. -/
def get_streetview_pitch (T : ℝ → ℝ → ℝ → ℝ × ℝ × ℝ) (cam : Option (ℝ × ℝ))
    (longitude latitude : ℝ) (building_height : Option ℝ)
    (use_building_height : Bool) (pitch : ℝ) : ℝ :=
  if use_building_height = true ∧ heightTruthy building_height then
    match cam with
    | some c =>
        halfAngleDeg (vec_ground T c longitude latitude)
          (vec_top T c longitude latitude (building_height.getD 0))
    | none => pitch
  else pitch

/-- Modelled from the spec: the concrete-pitch test fixture places
coordinates with an equirectangular approximation, so the geographic to
geocentric transform of the fixture is the identity local frame
`(lon, lat, height)`, with longitude/latitude read directly as planar
metre offsets. -/
def equirect (longitude latitude height : ℝ) : ℝ × ℝ × ℝ :=
  (longitude, latitude, height)

/-- Embedding of `get_streetview_url` (src/dataset/utils.py,
lines 121-155): computes the pitch, then always returns the formatted
request URL (the return type is `Option String` because the source
annotates `Optional[str]`, but the value is always `some`).  `fmt`
abstracts Python float formatting inside the f-string and `apiKey` the
`GOOGLE_MAPS_KEY` environment value. -/
def get_streetview_url (T : ℝ → ℝ → ℝ → ℝ × ℝ × ℝ) (cam : Option (ℝ × ℝ))
    (apiKey : String) (fmt : ℝ → String)
    (longitude latitude : ℝ) (building_height : Option ℝ)
    (use_building_height : Bool) (pitch : ℝ) : Option String :=
  some ("https://maps.googleapis.com/maps/api/streetview?size=350x350&location="
    ++ fmt latitude ++ "," ++ fmt longitude ++ "&fov=70&pitch="
    ++ fmt (get_streetview_pitch T cam longitude latitude building_height
        use_building_height pitch)
    ++ "&source=outdoor&key=" ++ apiKey)

/-- Abstract HTTP response for the Street View image request: a status
code and the raw body bytes. -/
structure HttpResponse where
  status : ℕ
  content : List ℕ

/-- Control-flow outcome of `download_streetview_image`: which return path
the function takes, and what it writes to disk.  `noUrl` is the
`if not url: return False` branch, `httpError` the exception path from
`raise_for_status`, `tooSmall` the blank-image check returning `False`,
and `saved` the successful write returning `True`. -/
inductive DownloadOutcome where
  | noUrl
  | httpError
  | tooSmall
  | saved (path : String) (content : List ℕ)

/-- Embedding of `download_streetview_image` (src/dataset/utils.py,
lines 158-211): build the URL, return `False` if it is falsy (`None` or
empty), raise on a non-success HTTP status (caught, returning `False`),
return `False` without writing when the body is below the 5000-byte
blank-image threshold, otherwise write the image and return `True`. -/
def download_streetview_image (T : ℝ → ℝ → ℝ → ℝ × ℝ × ℝ)
    (cam : Option (ℝ × ℝ)) (apiKey : String) (fmt : ℝ → String)
    (longitude latitude : ℝ) (building_height : Option ℝ)
    (use_building_height : Bool) (pitch : ℝ)
    (resp : HttpResponse) (outputPath : String) : DownloadOutcome :=
  match get_streetview_url T cam apiKey fmt longitude latitude building_height
      use_building_height pitch with
  | none => .noUrl
  | some url =>
      if url.length = 0 then .noUrl
      else if 400 ≤ resp.status then .httpError
      else if resp.content.length < 5000 then .tooSmall
      else .saved outputPath resp.content

/-- Boolean return value of `download_streetview_image`: `True` exactly on
the successful-save path. -/
def downloadReturnsTrue : DownloadOutcome → Bool
  | .saved _ _ => true
  | _ => false

/-- File written by `download_streetview_image`, if any. -/
def downloadWrites : DownloadOutcome → Option (String × List ℕ)
  | .saved p c => some (p, c)
  | _ => none

end

/-- A raw OSM building element as consumed by `process_osm_building`
(src/dataset/process_osm_data.py): an optional numeric identifier, an
optional geometry node list (`building.get("geometry", [])` defaults to
the empty list) and an optional tag dictionary
(`building.get("tags", \x7b\x7d)` defaults to empty), modelled as an
association list. -/
structure OsmBuilding where
  id : Option Int
  geometry : Option (List (ℚ × ℚ))
  tags : Option (List (String × String))

/-- Python `dict.get` on the tag dictionary, modelled over the
association list. -/
def tagGet (tags : List (String × String)) (key : String) : Option String :=
  (tags.find? (fun kv => kv.1 == key)).map (fun kv => kv.2)

/-- The record produced by `process_osm_building`
(src/dataset/process_osm_data.py, lines 68-85). -/
structure ProcessedBuilding where
  osm_id : Option Int
  longitude : ℚ
  latitude : ℚ
  building_height : Option ℚ
  levels : Option Int
  building_type : String
  building_material : String
  roof_material : String
  roof_shape : String
  name : String
  street : String
  housenumber : String
  postcode : String
  city : String
  footprint_wkt : List (ℚ × ℚ)
  footprint_area : ℚ

/-- Embedding of `process_osm_building` (src/dataset/process_osm_data.py,
lines 30-88).  The geometry is closed and parsed by the ring pipeline; any
geometry failure is the `Except.error` case (in the source it is caught by
the catch-all `except`, logged and turned into `None`).  `repPoint`
abstracts shapely's `representative_point`, `pyFloat` and `pyInt` abstract
the Python `float()`/`int()` string conversions whose failures are caught
internally and mapped to `None` height/levels.  The parsed polygon has a
single ring and no holes. -/
def process_osm_building (repPoint : List (ℚ × ℚ) → ℚ × ℚ)
    (pyFloat : String → Option ℚ) (pyInt : String → Option Int)
    (proj : ℚ × ℚ → ℚ × ℚ) (building : OsmBuilding) :
    Except GeomError ProcessedBuilding :=
  match osmRingParse (building.geometry.getD []) with
  | .error e => .error e
  | .ok coords =>
      let tags := building.tags.getD []
      let rp := repPoint coords
      .ok {
        osm_id := building.id
        longitude := rp.1
        latitude := rp.2
        building_height := (tagGet tags "height").bind pyFloat
        levels := (tagGet tags "building:levels").bind pyInt
        building_type := (tagGet tags "building").getD ""
        building_material := (tagGet tags "building:material").getD ""
        roof_material := (tagGet tags "roof:material").getD ""
        roof_shape := (tagGet tags "roof:shape").getD ""
        name := (tagGet tags "name").getD ""
        street := (tagGet tags "addr:street").getD ""
        housenumber := (tagGet tags "addr:housenumber").getD ""
        postcode := (tagGet tags "addr:postcode").getD ""
        city := (tagGet tags "addr:city").getD ""
        footprint_wkt := coords
        footprint_area := calculate_polygon_area_in_utm proj (GeoPolygon.mk coords [])
      }

/-- Embedding of the batch loop of the `__main__` block
(src/dataset/process_osm_data.py, lines 198-204): each building is
processed in turn; on success the record is appended to the output, on
failure the building identifier is logged (second component, modelling
the printed error messages in input order) and the building is dropped;
the loop always continues. -/
def processBuildingsLoop (repPoint : List (ℚ × ℚ) → ℚ × ℚ)
    (pyFloat : String → Option ℚ) (pyInt : String → Option Int)
    (proj : ℚ × ℚ → ℚ × ℚ) :
    List OsmBuilding → List ProcessedBuilding × List (Option Int)
  | [] => ([], [])
  | b :: rest =>
      let r := processBuildingsLoop repPoint pyFloat pyInt proj rest
      match process_osm_building repPoint pyFloat pyInt proj b with
      | .ok pb => (pb :: r.1, r.2)
      | .error _ => (r.1, b.id :: r.2)

lemma foldl_sub_eq_sub_sum (f : List (ℚ × ℚ) → ℚ) :
    ∀ (l : List (List (ℚ × ℚ))) (a : ℚ),
      l.foldl (fun acc x => acc - f x) a = a - (l.map f).sum := by
  intro l
  induction l with
  | nil => intro a; simp
  | cons x t ih =>
      intro a
      simp only [List.foldl_cons, List.map_cons, List.sum_cons, ih]
      ring

/-- C1: For every polygon, the computed area equals the area of the
exterior ring minus the sum of the areas of its hole rings, where each
ring's area is computed independently by projecting its vertices to UTM
coordinates (the abstract projection `proj`) and applying the planar
polygon-area formula. -/
theorem C1_polygon_area_exterior_minus_holes
    (proj : ℚ × ℚ → ℚ × ℚ) (polygon : GeoPolygon) :
    calculate_polygon_area_in_utm proj polygon
        = calculate_ring_area_in_utm proj polygon.exterior
          - (polygon.interiors.map (calculate_ring_area_in_utm proj)).sum
    ∧ ∀ ring : List (ℚ × ℚ),
        calculate_ring_area_in_utm proj ring = shoelaceArea (ring.map proj) := by
  constructor
  · exact foldl_sub_eq_sub_sum (calculate_ring_area_in_utm proj) polygon.interiors
      (calculate_ring_area_in_utm proj polygon.exterior)
  · intro ring
    rfl

lemma cross_term_self (p : ℚ × ℚ) : cross p p = 0 := by
  unfold cross; ring

lemma cross_term_antisymm (p q : ℚ × ℚ) : cross p q = -cross q p := by
  unfold cross; ring

lemma lastD_cons_of_ne_nil (p d : ℚ × ℚ) (l : List (ℚ × ℚ)) (h : l ≠ []) :
    lastD (p :: l) d = lastD l d := by
  cases l with
  | nil => exact absurd rfl h
  | cons q t => rfl

lemma lastD_concat : ∀ (l : List (ℚ × ℚ)) (a d : ℚ × ℚ), lastD (l ++ [a]) d = a
  | [], a, d => rfl
  | p :: t, a, d => by
      rw [List.cons_append, lastD_cons_of_ne_nil p d (t ++ [a]) (by simp)]
      exact lastD_concat t a d

lemma pathSum_append_single :
    ∀ (l : List (ℚ × ℚ)) (a : ℚ × ℚ),
      pathSum (l ++ [a]) = pathSum l + cross (lastD l a) a
  | [], a => by simp [pathSum, lastD, cross_term_self]
  | [p], a => by simp [pathSum, lastD]
  | p :: q :: t, a => by
      have ih := pathSum_append_single (q :: t) a
      simp only [List.cons_append] at ih ⊢
      show cross p q + pathSum (q :: (t ++ [a]))
          = cross p q + pathSum (q :: t) + cross (lastD (q :: t) a) a
      rw [ih]
      ring

lemma ringSum_append_single (a : ℚ × ℚ) (l : List (ℚ × ℚ)) :
    ringSum (l ++ [a]) = ringSum (a :: l) := by
  cases l with
  | nil => rfl
  | cons p t =>
      show ringSum ((p :: t) ++ [a]) = ringSum (a :: p :: t)
      have h1 : ringSum ((p :: t) ++ [a])
          = pathSum ((p :: t) ++ [a]) + cross (lastD (t ++ [a]) p) p := rfl
      have h2 : ringSum (a :: p :: t)
          = cross a p + pathSum (p :: t) + cross (lastD (p :: t) a) a := by
        show pathSum (a :: p :: t) + cross (lastD (p :: t) a) a
            = cross a p + pathSum (p :: t) + cross (lastD (p :: t) a) a
        show cross a p + pathSum (p :: t) + cross (lastD (p :: t) a) a
            = cross a p + pathSum (p :: t) + cross (lastD (p :: t) a) a
        rfl
      rw [h1, h2, pathSum_append_single, lastD_concat]
      ring

lemma ringSum_rotate : ∀ (n : ℕ) (l : List (ℚ × ℚ)), ringSum (l.rotate n) = ringSum l := by
  intro n
  induction n with
  | zero => intro l; rw [List.rotate_zero]
  | succ m ih =>
      intro l
      cases l with
      | nil => rfl
      | cons p t =>
          rw [List.rotate_cons_succ, ih (t ++ [p]), ringSum_append_single]

lemma headD_cons (p d : ℚ × ℚ) (l : List (ℚ × ℚ)) : (p :: l).headD d = p := rfl

lemma lastD_reverse (l : List (ℚ × ℚ)) (d : ℚ × ℚ) :
    lastD l.reverse d = l.headD d := by
  cases l with
  | nil => rfl
  | cons p t =>
      rw [List.reverse_cons, lastD_concat, headD_cons]

lemma pathSum_cons (p : ℚ × ℚ) (t : List (ℚ × ℚ)) :
    pathSum (p :: t) = cross p (t.headD p) + pathSum t := by
  cases t with
  | nil => simp [pathSum, cross_term_self]
  | cons q t1 => rfl

lemma pathSum_reverse :
    ∀ l : List (ℚ × ℚ), pathSum l.reverse = -pathSum l
  | [] => by simp [pathSum]
  | [p] => by simp [pathSum]
  | p :: q :: t => by
      have ih := pathSum_reverse (q :: t)
      rw [List.reverse_cons, pathSum_append_single, ih, List.reverse_cons, lastD_concat]
      rw [show pathSum (p :: q :: t) = cross p q + pathSum (q :: t) from rfl,
        cross_term_antisymm q p]
      ring

lemma headD_reverse (l : List (ℚ × ℚ)) (d : ℚ × ℚ) :
    l.reverse.headD d = lastD l d := by
  have h := lastD_reverse l.reverse d
  rw [List.reverse_reverse] at h
  exact h.symm

lemma ringSum_reverse (l : List (ℚ × ℚ)) : ringSum l.reverse = -ringSum l := by
  cases l with
  | nil => simp [ringSum]
  | cons p t =>
      rw [List.reverse_cons, ringSum_append_single]
      show pathSum (p :: t.reverse) + cross (lastD t.reverse p) p = -ringSum (p :: t)
      rw [show ringSum (p :: t) = pathSum (p :: t) + cross (lastD t p) p from rfl]
      rw [pathSum_cons p t.reverse, headD_reverse, lastD_reverse, pathSum_reverse t,
        pathSum_cons p t]
      simp only [cross]
      ring

/-- C7: For every ring, the projected-coordinate area computed by
`calculate_ring_area_in_utm` is invariant under cyclic rotation of the
starting vertex and under reversal of the traversal direction: the
absolute value in the shoelace formula removes any sign dependence on
winding order. -/
theorem C7_ring_area_rotation_reversal_invariant
    (proj : ℚ × ℚ → ℚ × ℚ) (ring : List (ℚ × ℚ)) (n : ℕ) :
    calculate_ring_area_in_utm proj (ring.rotate n)
        = calculate_ring_area_in_utm proj ring
    ∧ calculate_ring_area_in_utm proj ring.reverse
        = calculate_ring_area_in_utm proj ring := by
  constructor
  · unfold calculate_ring_area_in_utm shoelaceArea
    rw [List.map_rotate, ringSum_rotate]
  · unfold calculate_ring_area_in_utm shoelaceArea
    rw [List.map_reverse, ringSum_reverse, abs_neg]

/-- C2, evaluation at the failing input and at the short-ring inputs: on an
empty input ring the pipeline raises an out-of-range index access (the
claim says this must not happen), while one-vertex and two-vertex rings do
signal an invalid-geometry error as claimed. -/
theorem C2_short_ring_evaluation :
    osmRingParse ([] : List (ℚ × ℚ)) = .error .indexOutOfRange
    ∧ osmRingParse [((0 : ℚ), (0 : ℚ))] = .error .invalidGeometry
    ∧ osmRingParse [((0 : ℚ), (0 : ℚ)), ((1 : ℚ), (1 : ℚ))] = .error .invalidGeometry := by
  refine ⟨rfl, rfl, rfl⟩

/-- C6: Ring closing is idempotent.  For a ring of at least 3 vertices
whose first and last vertices differ, the computed area of the ring as
given equals the computed area of the same ring given already closed
(first vertex appended at the end). -/
theorem C6_ring_closing_idempotent
    (proj : ℚ × ℚ → ℚ × ℚ) (p : ℚ × ℚ) (t : List (ℚ × ℚ))
    (_hlen : 3 ≤ (p :: t).length) (hne : p ≠ lastD t p) :
    osmRingAreaPipeline proj (p :: t)
      = osmRingAreaPipeline proj ((p :: t) ++ [p]) := by
  have hopen : convert_osm_to_wkt (p :: t) = .ok ((p :: t) ++ [p]) := by
    simp only [convert_osm_to_wkt]
    rw [if_pos hne]
  have hclosed : convert_osm_to_wkt ((p :: t) ++ [p]) = .ok ((p :: t) ++ [p]) := by
    rw [List.cons_append]
    simp only [convert_osm_to_wkt]
    rw [if_neg]
    rw [lastD_concat]
    exact fun h => h rfl
  unfold osmRingAreaPipeline osmRingParse
  rw [hopen, hclosed]

/-- Witness for C6 at a concrete triangle ring. -/
theorem C6_ring_closing_idempotent_witness :
    3 ≤ ([((0 : ℚ), (0 : ℚ)), ((1 : ℚ), (0 : ℚ)), ((0 : ℚ), (1 : ℚ))] : List (ℚ × ℚ)).length
    ∧ ((0 : ℚ), (0 : ℚ)) ≠ lastD [((1 : ℚ), (0 : ℚ)), ((0 : ℚ), (1 : ℚ))] ((0 : ℚ), (0 : ℚ))
    ∧ osmRingAreaPipeline id [((0 : ℚ), (0 : ℚ)), ((1 : ℚ), (0 : ℚ)), ((0 : ℚ), (1 : ℚ))]
        = osmRingAreaPipeline id
            ([((0 : ℚ), (0 : ℚ)), ((1 : ℚ), (0 : ℚ)), ((0 : ℚ), (1 : ℚ))] ++ [((0 : ℚ), (0 : ℚ))]) :=
  ⟨by decide, by decide,
    C6_ring_closing_idempotent id ((0 : ℚ), (0 : ℚ))
      [((1 : ℚ), (0 : ℚ)), ((0 : ℚ), (1 : ℚ))] (by decide) (by decide)⟩

lemma halfAngleDeg_concrete (d : ℝ) (hd : 0 < d) :
    halfAngleDeg (d, 0, 0) (d, 0, d) = 22.5 := by
  have hs2 : Real.sqrt 2 * Real.sqrt 2 = 2 := Real.mul_self_sqrt (by norm_num)
  have harc : Real.arccos (Real.sqrt 2 / 2) = Real.pi / 4 := by
    rw [← Real.cos_pi_div_four]
    exact Real.arccos_cos (by linarith [Real.pi_pos]) (by linarith [Real.pi_pos])
  have hcos : d * d / (d * (Real.sqrt 2 * d)) = Real.sqrt 2 / 2 := by
    rw [div_eq_div_iff (by positivity) (by norm_num : (2 : ℝ) ≠ 0)]
    linear_combination (-(d * d)) * hs2
  have h1 : dot3 (d, 0, 0) (d, 0, d) = d * d := by
    simp [dot3]
  have h2 : dot3 ((d : ℝ), 0, 0) (d, 0, 0) = d * d := by
    simp [dot3]
  have h3 : dot3 ((d : ℝ), 0, d) (d, 0, d) = 2 * (d * d) := by
    simp [dot3]; ring
  unfold halfAngleDeg degrees norm3
  rw [h1, h2, h3,
    Real.sqrt_mul_self hd.le,
    Real.sqrt_mul (by norm_num : (0 : ℝ) ≤ 2) (d * d),
    Real.sqrt_mul_self hd.le, hcos, harc]
  have hpi : Real.pi ≠ 0 := Real.pi_ne_zero
  field_simp
  ring_nf

/-- C3: When the height-based pitch path is taken (`use_building_height`
set, non-zero building height, observer camera position found), the
computed pitch equals exactly half of the angle, in degrees, given by the
inverse cosine of the normalized dot product of the observer-to-ground and
observer-to-rooftop geocentric vectors; and for the equirectangular test
fixture with the observer offset purely horizontally at a distance equal
to the target height, the pitch is 22.5 degrees. -/
theorem C3_height_pitch_half_angle :
    (∀ (T : ℝ → ℝ → ℝ → ℝ × ℝ × ℝ) (c : ℝ × ℝ) (longitude latitude h p : ℝ),
      h ≠ 0 →
      get_streetview_pitch T (some c) longitude latitude (some h) true p
        = degrees (Real.arccos
            (dot3 (vec_ground T c longitude latitude) (vec_top T c longitude latitude h)
              / (norm3 (vec_ground T c longitude latitude)
                  * norm3 (vec_top T c longitude latitude h))))
          * (1 / 2))
    ∧ ∀ d p : ℝ, 0 < d →
        get_streetview_pitch equirect (some (0, 0)) d 0 (some d) true p = 22.5 := by
  constructor
  · intro T c longitude latitude h p hh
    unfold get_streetview_pitch
    rw [if_pos ⟨rfl, hh⟩]
    rfl
  · intro d p hd
    have hvg : vec_ground equirect (0, 0) d 0 = (d, 0, 0) := by
      simp [vec_ground, equirect, sub3]
    have hvt : vec_top equirect (0, 0) d 0 d = (d, 0, d) := by
      simp [vec_top, equirect, sub3]
    unfold get_streetview_pitch
    rw [if_pos ⟨rfl, hd.ne'⟩]
    show halfAngleDeg (vec_ground equirect (0, 0) d 0)
        (vec_top equirect (0, 0) d 0 ((some d).getD 0)) = 22.5
    rw [show ((some d).getD 0 : ℝ) = d from rfl, hvg, hvt]
    exact halfAngleDeg_concrete d hd

/-- Witness for C3: at the concrete fixture (observer at the origin,
target one unit away horizontally, height one unit), both conjuncts are
instantiated; the height-based pitch is 22.5 degrees. -/
theorem C3_height_pitch_half_angle_witness :
    get_streetview_pitch equirect (some (0, 0)) 1 0 (some 1) true 0
        = degrees (Real.arccos
            (dot3 (vec_ground equirect (0, 0) 1 0) (vec_top equirect (0, 0) 1 0 1)
              / (norm3 (vec_ground equirect (0, 0) 1 0)
                  * norm3 (vec_top equirect (0, 0) 1 0 1))))
          * (1 / 2)
    ∧ get_streetview_pitch equirect (some (0, 0)) 1 0 (some 1) true 0 = 22.5 :=
  ⟨C3_height_pitch_half_angle.1 equirect (0, 0) 1 0 1 0 one_ne_zero,
   C3_height_pitch_half_angle.2 1 0 one_pos⟩

/-- C4: When the target height is absent or zero, or when no observer
camera position is available, the computed pitch is the caller-supplied
fixed default.  The height fallback holds for every transform `T` and
every camera lookup result, which expresses that the missing-height check
precedes any vector computation: the result does not depend on the
geometry at all. -/
theorem C4_default_pitch_fallback (T : ℝ → ℝ → ℝ → ℝ × ℝ × ℝ)
    (cam : Option (ℝ × ℝ)) (longitude latitude : ℝ)
    (building_height : Option ℝ) (use_building_height : Bool) (pitch : ℝ) :
    (building_height = none ∨ building_height = some 0 →
      get_streetview_pitch T cam longitude latitude building_height
        use_building_height pitch = pitch)
    ∧ get_streetview_pitch T none longitude latitude building_height
        use_building_height pitch = pitch := by
  constructor
  · intro hbh
    unfold get_streetview_pitch
    rw [if_neg]
    rcases hbh with hbh | hbh <;> subst hbh <;> simp [heightTruthy]
  · unfold get_streetview_pitch
    split <;> rfl

/-- Witness for C4: with no building height and a camera position present,
and separately with no camera position, the default pitch of 30 is kept. -/
theorem C4_default_pitch_fallback_witness :
    get_streetview_pitch equirect (some (1, 2)) 0 0 none true 30 = 30
    ∧ get_streetview_pitch equirect none 0 0 (some 5) true 30 = 30 :=
  ⟨(C4_default_pitch_fallback equirect (some (1, 2)) 0 0 none true 30).1 (Or.inl rfl),
   (C4_default_pitch_fallback equirect none 0 0 (some 5) true 30).2⟩

/-- C5: When the observer coincides with the target ground point (the
camera position equals the target coordinates), the observer-to-ground
vector has zero length, yet the pitch computation still takes the
division path: it divides by the zero product of the norms and returns a
numeric pitch (45 under total real division, where x / 0 = 0 and
arccos 0 = 90 degrees; NaN under Python float semantics, where 0 / 0 is
NaN).  No error condition is signalled, contradicting the claim. -/
theorem C5_zero_vector_division (T : ℝ → ℝ → ℝ → ℝ × ℝ × ℝ)
    (longitude latitude h p : ℝ) (hh : h ≠ 0) :
    norm3 (vec_ground T (longitude, latitude) longitude latitude) = 0
    ∧ get_streetview_pitch T (some (longitude, latitude)) longitude latitude
        (some h) true p
        = halfAngleDeg (vec_ground T (longitude, latitude) longitude latitude)
            (vec_top T (longitude, latitude) longitude latitude h)
    ∧ get_streetview_pitch T (some (longitude, latitude)) longitude latitude
        (some h) true p = 45 := by
  have hvg : vec_ground T (longitude, latitude) longitude latitude = (0, 0, 0) := by
    simp [vec_ground, sub3]
  have hnorm : norm3 ((0, 0, 0) : ℝ × ℝ × ℝ) = 0 := by
    simp [norm3, dot3]
  have hformula : get_streetview_pitch T (some (longitude, latitude)) longitude latitude
      (some h) true p
      = halfAngleDeg (vec_ground T (longitude, latitude) longitude latitude)
          (vec_top T (longitude, latitude) longitude latitude h) := by
    unfold get_streetview_pitch
    rw [if_pos ⟨rfl, hh⟩]
    rfl
  refine ⟨hvg ▸ hnorm, hformula, ?_⟩
  rw [hformula, hvg]
  unfold halfAngleDeg degrees
  rw [show dot3 (0, 0, 0) (vec_top T (longitude, latitude) longitude latitude h) = 0
      by simp [dot3], hnorm, zero_mul, zero_div, Real.arccos_zero]
  have hpi : Real.pi ≠ 0 := Real.pi_ne_zero
  field_simp
  ring

/-- Witness for C5: with the observer camera at the target point and a
building height of 1, the ground vector is degenerate and the computed
pitch is the numeric value 45 rather than an error. -/
theorem C5_zero_vector_division_witness :
    norm3 (vec_ground equirect (0, 0) 0 0) = 0
    ∧ get_streetview_pitch equirect (some (0, 0)) 0 0 (some 1) true 30 = 45 :=
  ⟨(C5_zero_vector_division equirect 0 0 1 30 one_ne_zero).1,
   (C5_zero_vector_division equirect 0 0 1 30 one_ne_zero).2.2⟩

/-- C9: For every ground-level image fetch whose HTTP response body is
smaller than the fixed 5000-byte threshold, the download reports failure
(returns `False`) and writes no image file to disk, on every control-flow
path of `download_streetview_image`. -/
theorem C9_small_payload_not_saved (T : ℝ → ℝ → ℝ → ℝ × ℝ × ℝ)
    (cam : Option (ℝ × ℝ)) (apiKey : String) (fmt : ℝ → String)
    (longitude latitude : ℝ) (building_height : Option ℝ)
    (use_building_height : Bool) (pitch : ℝ)
    (resp : HttpResponse) (outputPath : String)
    (hsmall : resp.content.length < 5000) :
    downloadReturnsTrue (download_streetview_image T cam apiKey fmt longitude latitude
        building_height use_building_height pitch resp outputPath) = false
    ∧ downloadWrites (download_streetview_image T cam apiKey fmt longitude latitude
        building_height use_building_height pitch resp outputPath) = none := by
  refine ⟨?_, ?_⟩ <;>
  · simp only [download_streetview_image, get_streetview_url]
    repeat' split
    all_goals rfl

/-- Witness for C9: an empty 200-status response body is below the
threshold; the download reports failure and writes nothing. -/
theorem C9_small_payload_not_saved_witness :
    (HttpResponse.mk 200 []).content.length < 5000
    ∧ downloadReturnsTrue (download_streetview_image equirect none "k" (fun _ => "0")
        0 0 none false 30 (HttpResponse.mk 200 []) "out.jpg") = false
    ∧ downloadWrites (download_streetview_image equirect none "k" (fun _ => "0")
        0 0 none false 30 (HttpResponse.mk 200 []) "out.jpg") = none :=
  ⟨by decide,
   (C9_small_payload_not_saved equirect none "k" (fun _ => "0")
      0 0 none false 30 (HttpResponse.mk 200 []) "out.jpg" (by decide)).1,
   (C9_small_payload_not_saved equirect none "k" (fun _ => "0")
      0 0 none false 30 (HttpResponse.mk 200 []) "out.jpg" (by decide)).2⟩

/-- C10: For every input, `get_streetview_url` returns `some` non-empty
string despite its `Optional` return annotation, and consequently the
missing-URL branch of `download_streetview_image` (returning `False` when
the URL is falsy) is unreachable. -/
theorem C10_url_never_none (T : ℝ → ℝ → ℝ → ℝ × ℝ × ℝ)
    (cam : Option (ℝ × ℝ)) (apiKey : String) (fmt : ℝ → String)
    (longitude latitude : ℝ) (building_height : Option ℝ)
    (use_building_height : Bool) (pitch : ℝ)
    (resp : HttpResponse) (outputPath : String) :
    (∃ url : String,
      get_streetview_url T cam apiKey fmt longitude latitude building_height
          use_building_height pitch = some url
      ∧ url.length ≠ 0)
    ∧ download_streetview_image T cam apiKey fmt longitude latitude building_height
        use_building_height pitch resp outputPath ≠ DownloadOutcome.noUrl := by
  have hpos :
      0 < ("https://maps.googleapis.com/maps/api/streetview?size=350x350&location=" :
        String).length := by
    decide
  have hlen :
      ("https://maps.googleapis.com/maps/api/streetview?size=350x350&location="
        ++ fmt latitude ++ "," ++ fmt longitude ++ "&fov=70&pitch="
        ++ fmt (get_streetview_pitch T cam longitude latitude building_height
            use_building_height pitch)
        ++ "&source=outdoor&key=" ++ apiKey).length ≠ 0 := by
    simp only [String.length_append]
    omega
  constructor
  · exact ⟨_, rfl, hlen⟩
  · simp only [download_streetview_image, get_streetview_url]
    rw [if_neg hlen]
    split
    next => intro hcon; cases hcon
    next =>
      split
      next => intro hcon; cases hcon
      next => intro hcon; cases hcon

/-- C8: For every batch of building records, the processed output is
exactly the successfully processed buildings in input order (failures are
dropped and the batch continues), and the failure log is exactly the
identifiers of the failing buildings, in input order. -/
theorem C8_batch_drops_failures_continues (repPoint : List (ℚ × ℚ) → ℚ × ℚ)
    (pyFloat : String → Option ℚ) (pyInt : String → Option Int)
    (proj : ℚ × ℚ → ℚ × ℚ) (buildings : List OsmBuilding) :
    (processBuildingsLoop repPoint pyFloat pyInt proj buildings).1
        = buildings.filterMap
            (fun b => (process_osm_building repPoint pyFloat pyInt proj b).toOption)
    ∧ (processBuildingsLoop repPoint pyFloat pyInt proj buildings).2
        = (buildings.filter
            (fun b => ((process_osm_building repPoint pyFloat pyInt proj b).toOption).isNone)).map
            (fun b => b.id) := by
  induction buildings with
  | nil => exact ⟨rfl, rfl⟩
  | cons b rest ih =>
      cases hpb : process_osm_building repPoint pyFloat pyInt proj b with
      | ok pb =>
          refine ⟨?_, ?_⟩ <;>
            simp [processBuildingsLoop, hpb, Except.toOption, List.filterMap_cons,
              List.filter_cons, ih.1, ih.2]
      | error e =>
          refine ⟨?_, ?_⟩ <;>
            simp [processBuildingsLoop, hpb, Except.toOption, List.filterMap_cons,
              List.filter_cons, ih.1, ih.2]
